import Mathlib

/-!
Shallow embedding of the websocket echo server (src/src/main.rs).

The program is a single-file ntex websocket echo server.  Its core pieces are:
* a per-frame handler service built in `ws_service` (lines 45-61),
* a per-connection heartbeat supervisor `heartbeat` (lines 70-96),
* a oneshot shutdown channel fired by the service shutdown hook (lines 39, 64-66),
* TLS material loading at the top of `main` (lines 108-121) before the listeners
  are bound (lines 134-135).

Bytes are modelled as `Nat` values (the source uses `u8`; all operations here are
comparisons, so no wrap-around arithmetic occurs).  Instants are modelled as `Nat`
time-units; `Duration::from_secs` constants become plain `Nat`s.  A panic (from
`.unwrap()`) is modelled as `Except.error ()`.
-/

/-- How often heartbeat pings are sent (`HEARTBEAT_INTERVAL`, main.rs line 19). -/
def HEARTBEAT_INTERVAL : Nat := 5

/-- How long before lack of client response causes a timeout (`CLIENT_TIMEOUT`, main.rs line 21). -/
def CLIENT_TIMEOUT : Nat := 10

/-- Close reason carried by a websocket close frame (ntex `ws::CloseReason`):
a close code plus an optional description. -/
structure CloseReason where
  code : Nat
  description : Option (List Nat)
deriving DecidableEq, Repr

/-- Inbound websocket frames (ntex `ws::Frame`).  Payloads are byte lists. -/
inductive Frame where
  | Ping (payload : List Nat)
  | Pong (payload : List Nat)
  | Text (payload : List Nat)
  | Binary (payload : List Nat)
  | Close (reason : Option CloseReason)
  | Continuation (payload : List Nat)
deriving DecidableEq, Repr

/-- Outbound websocket messages (ntex `ws::Message`).  A `Text` message carries
the bytes of its `String` payload (Rust `String::from_utf8` keeps the byte
sequence of its input unchanged when it succeeds). -/
inductive Message where
  | Text (payload : List Nat)
  | Binary (payload : List Nat)
  | Ping (payload : List Nat)
  | Pong (payload : List Nat)
  | Close (reason : Option CloseReason)
deriving DecidableEq, Repr

/-- Per-connection mutable state (`WsState`, main.rs lines 23-27): the
last-heartbeat instant `hb`. -/
structure WsState where
  hb : Nat
deriving DecidableEq, Repr

/-- Whether a byte is a UTF-8 continuation byte (0x80..=0xBF). -/
def isCont (b : Nat) : Bool := 128 ≤ b && b ≤ 191

/-- Validity of a byte sequence as UTF-8, exactly as checked by Rust's
`String::from_utf8` (strict UTF-8: shortest forms only, no surrogate code
points, maximum code point U+10FFFF). -/
def validUtf8 : List Nat → Bool
  | [] => true
  | b :: rest =>
    if b ≤ 127 then validUtf8 rest
    else if 194 ≤ b && b ≤ 223 then
      match rest with
      | c1 :: r => isCont c1 && validUtf8 r
      | [] => false
    else if 224 ≤ b && b ≤ 239 then
      match rest with
      | c1 :: c2 :: r =>
        (if b = 224 then 160 ≤ c1 && c1 ≤ 191
         else if b = 237 then 128 ≤ c1 && c1 ≤ 159
         else isCont c1) && isCont c2 && validUtf8 r
      | _ => false
    else if 240 ≤ b && b ≤ 244 then
      match rest with
      | c1 :: c2 :: c3 :: r =>
        (if b = 240 then 144 ≤ c1 && c1 ≤ 191
         else if b = 244 then 128 ≤ c1 && c1 ≤ 143
         else isCont c1) && isCont c2 && isCont c3 && validUtf8 r
      | _ => false
    else false

/-- The per-frame handler closure installed by `ws_service` (main.rs lines
45-61), with the implicit clock reading `Instant::now()` made an explicit
argument `now` and the shared `WsState` threaded explicitly.  `Except.error ()`
models the panic of `String::from_utf8(..).unwrap()` on invalid UTF-8; on
success the handler returns the updated state and `Some` outbound message
(the source always wraps the produced item in `Ok(Some(item))`). -/
def handleFrame (frame : Frame) (now : Nat) (st : WsState) :
    Except Unit (WsState × Option Message) :=
  match frame with
  | .Ping msg => .ok ({ hb := now }, some (.Pong msg))
  | .Text text =>
    if validUtf8 text then .ok (st, some (.Text text))
    else .error ()
  | .Binary bin => .ok (st, some (.Binary bin))
  | .Close reason => .ok (st, some (.Close reason))
  | _ => .ok (st, some (.Close none))

/-- Whether a frame is a `Ping`. -/
def Frame.isPing : Frame → Bool
  | .Ping _ => true
  | _ => false

/-- Connections are independent: the server handles each connection's frame
with its own state and clock reading; no state is shared across connections. -/
def serverStep (conns : List (Frame × Nat × WsState)) :
    List (Except Unit (WsState × Option Message)) :=
  conns.map (fun c => handleFrame c.1 c.2.1 c.2.2)

/-- One iteration of the `heartbeat` loop (main.rs lines 75-95) observes either
the tick side of the `select` winning (`tick`, carrying the clock reading `now`,
the liveness timestamp `hb` read from the shared state at that instant, and
whether the sink send would succeed) or the shutdown receiver winning
(`shutdown`). -/
inductive HbEvent where
  | tick (now hb : Nat) (sendOk : Bool)
  | shutdown
deriving DecidableEq, Repr

/-- Terminal (or still-running) status of the heartbeat supervisor. -/
inductive HbOutcome where
  | Running
  | TimedOut
  | SendFailed
  | Cancelled
deriving DecidableEq, Repr

/-- The `heartbeat` loop (main.rs lines 75-95) over a sequence of select
outcomes: returns the final status and the list of instants at which a ping
send was attempted through the sink.  On a tick it first checks
`now.duration_since(hb) > CLIENT_TIMEOUT` (returning `TimedOut` without
attempting any send), otherwise attempts the ping send, returning `SendFailed`
when the send errors and looping otherwise.  A win by the shutdown receiver
returns immediately. -/
def heartbeatRun : List HbEvent → HbOutcome × List Nat
  | [] => (.Running, [])
  | .shutdown :: _ => (.Cancelled, [])
  | .tick now hb sendOk :: rest =>
    if now - hb > CLIENT_TIMEOUT then (.TimedOut, [])
    else if sendOk then
      let r := heartbeatRun rest
      (r.1, now :: r.2)
    else (.SendFailed, [now])

/-- Select outcomes seen by the supervisor of a connection whose peer stays
silent from instant 0: the timer wins every race, ticking at multiples of
`HEARTBEAT_INTERVAL`, and the liveness timestamp stays 0. -/
def silentPeerTicks (n : Nat) : List HbEvent :=
  (List.range n).map (fun i => .tick ((i + 1) * HEARTBEAT_INTERVAL) 0 true)

/-- The oneshot disconnect-notification channel (main.rs line 39): whether it
has been fired and whether the receiver half is still alive. -/
structure OneshotChannel where
  fired : Bool
  receiverAlive : Bool
deriving DecidableEq, Repr

/-- `tx.send(())` on the oneshot channel: delivers when the receiver is alive,
otherwise leaves the channel unchanged and reports an error to the caller. -/
def oneshotSend (ch : OneshotChannel) : OneshotChannel × Except Unit Unit :=
  if ch.receiverAlive then ({ ch with fired := true }, .ok ())
  else (ch, .error ())

/-- The service shutdown hook (main.rs lines 64-66): fires the oneshot channel
once and discards the send result (the source writes `let _ = tx.send(())`),
so a failed send never surfaces as an error. -/
def onShutdown (ch : OneshotChannel) : OneshotChannel :=
  (oneshotSend ch).1

/-- Observable effects of one connection's service over its lifetime. -/
inductive Effect where
  | sent (m : Message)
  | firedShutdown
deriving DecidableEq, Repr

/-- Runs the handler over the connection's inbound frames (each paired with the
clock reading at which it arrives), accumulating outbound messages and
threading the state; a handler panic stops frame processing.  Returns the
messages, the final state, and whether a panic occurred. -/
def processFrames (st : WsState) : List (Nat × Frame) → List Message × WsState × Bool
  | [] => ([], st, false)
  | (now, f) :: fs =>
    match handleFrame f now st with
    | .error _ => ([], st, true)
    | .ok (st1, m) =>
      let r := processFrames st1 fs
      (m.toList ++ r.1, r.2.1, r.2.2)

/-- The effect trace of one connection: the messages the handler produced,
followed by the single firing of the shutdown signal at teardown — the
dispatcher invokes the `on_shutdown` hook once when the transport session ends,
on every exit path (normal close or handler panic). -/
def serviceRun (st : WsState) (frames : List (Nat × Frame)) : List Effect :=
  ((processFrames st frames).1.map Effect.sent) ++ [Effect.firedShutdown]

/-- Startup outcome of `main` (main.rs lines 104-138): either a panic before
any listener is bound, or both listeners bound. -/
inductive StartupOutcome where
  | panickedBeforeBind
  | bound (plaintext tls : Bool)
deriving DecidableEq, Repr

/-- The startup sequence of `main` (main.rs lines 108-135).  `keyFile` and
`certFile` are the parse results of the two PEM files, `none` when the file is
missing or unreadable (`File::open(..).unwrap()` panics).  The key file is
opened and parsed first; `rsa_private_keys(..).unwrap().remove(0)` panics when
parsing fails is modelled by the empty-list check (remove(0) on an empty vec).
Only after both files load does `main` reach `.bind` and `.bind_rustls`. -/
def mainStartup (keyFile : Option (List (List Nat)))
    (certFile : Option (List (List Nat))) : StartupOutcome :=
  match keyFile with
  | none => .panickedBeforeBind
  | some keys =>
    if keys.isEmpty then .panickedBeforeBind
    else
      match certFile with
      | none => .panickedBeforeBind
      | some _ => .bound true true

/-! ## Theorems -/

/-- C1: for every inbound Text frame whose payload is valid UTF-8, the handler
produces an outbound Text message with the identical payload, and for every
inbound Binary frame it produces an outbound Binary message with the identical
payload, byte-for-byte. -/
theorem C1_echo_text_binary (ts bs : List Nat) (now : Nat) (st : WsState)
    (hvalid : validUtf8 ts = true) :
    handleFrame (.Text ts) now st = .ok (st, some (.Text ts)) ∧
    handleFrame (.Binary bs) now st = .ok (st, some (.Binary bs)) := by
  constructor
  · simp [handleFrame, hvalid]
  · rfl

/-- Witness for C1 at the valid UTF-8 text payload [104, 105] and the binary
payload [0, 255]. -/
theorem C1_echo_text_binary_witness :
    handleFrame (.Text [104, 105]) 3 ⟨0⟩ = .ok (⟨0⟩, some (.Text [104, 105])) ∧
    handleFrame (.Binary [0, 255]) 3 ⟨0⟩ = .ok (⟨0⟩, some (.Binary [0, 255])) :=
  C1_echo_text_binary [104, 105] [0, 255] 3 ⟨0⟩ (by decide)

/-- C2: an inbound Ping with payload p yields Pong(p) and sets the liveness
timestamp to the current clock reading, which strictly increases it under a
monotonic clock (hmono); every frame that is not a Ping and whose handling
succeeds leaves the liveness timestamp unchanged, so Ping receipt is the sole
writer of the connection state. -/
theorem C2_ping_liveness (p : List Nat) (now : Nat) (st : WsState) (f : Frame)
    (n2 : Nat) (s2 st2 : WsState) (m2 : Option Message)
    (hmono : st.hb < now) (hnp : f.isPing = false)
    (hrun : handleFrame f n2 s2 = .ok (st2, m2)) :
    handleFrame (.Ping p) now st = .ok ({ hb := now }, some (.Pong p)) ∧
    st.hb < WsState.hb { hb := now } ∧
    st2.hb = s2.hb := by
  refine ⟨rfl, hmono, ?_⟩
  cases f with
  | Ping q => simp [Frame.isPing] at hnp
  | Text t =>
    simp only [handleFrame] at hrun
    split at hrun
    · obtain ⟨h1, h2⟩ := Prod.mk.injEq .. ▸ Except.ok.inj hrun
      rw [← h1]
    · exact absurd hrun (by simp)
  | Binary b =>
    obtain ⟨h1, h2⟩ := Prod.mk.injEq .. ▸ Except.ok.inj hrun
    rw [← h1]
  | Pong q =>
    obtain ⟨h1, h2⟩ := Prod.mk.injEq .. ▸ Except.ok.inj hrun
    rw [← h1]
  | Close r =>
    obtain ⟨h1, h2⟩ := Prod.mk.injEq .. ▸ Except.ok.inj hrun
    rw [← h1]
  | Continuation c =>
    obtain ⟨h1, h2⟩ := Prod.mk.injEq .. ▸ Except.ok.inj hrun
    rw [← h1]

/-- Witness for C2: Ping [7] at time 5 from timestamp 0, against a Binary frame
as the non-Ping frame. -/
theorem C2_ping_liveness_witness :
    handleFrame (.Ping [7]) 5 ⟨0⟩ = .ok ({ hb := 5 }, some (.Pong [7])) ∧
    WsState.hb ⟨0⟩ < WsState.hb { hb := 5 } ∧
    WsState.hb ⟨0⟩ = WsState.hb ⟨0⟩ :=
  C2_ping_liveness [7] 5 ⟨0⟩ (.Binary [1]) 2 ⟨0⟩ ⟨0⟩ (some (.Binary [1]))
    (by decide) rfl rfl

/-- C3: an inbound Close frame carrying reason r yields exactly one outbound
Close message with the same reason verbatim; frames outside the recognized
kinds (Pong, Continuation) yield a Close message with no reason. -/
theorem C3_close_mapping (r : Option CloseReason) (p pl : List Nat)
    (now : Nat) (st : WsState) :
    handleFrame (.Close r) now st = .ok (st, some (.Close r)) ∧
    handleFrame (.Pong p) now st = .ok (st, some (.Close none)) ∧
    handleFrame (.Continuation pl) now st = .ok (st, some (.Close none)) :=
  ⟨rfl, rfl, rfl⟩

/-- C4: a Text frame whose payload is not valid UTF-8 is fatal to the handling
of that connection (the unwrap panics: the handler neither echoes a Text
message nor silently returns without one), and the failure is contained: in a
server step over several connections, the other connection is handled exactly
as it would be on its own. -/
theorem C4_invalid_text_fatal (bs : List Nat) (now : Nat) (st : WsState)
    (f2 : Frame) (n2 : Nat) (s2 : WsState)
    (hinv : validUtf8 bs = false) :
    handleFrame (.Text bs) now st = .error () ∧
    serverStep [(.Text bs, now, st), (f2, n2, s2)] =
      [.error (), handleFrame f2 n2 s2] := by
  have h1 : handleFrame (.Text bs) now st = .error () := by
    simp [handleFrame, hinv]
  exact ⟨h1, by simp [serverStep, h1]⟩

/-- Witness for C4 at the invalid byte [255], with a Binary frame on the other
connection. -/
theorem C4_invalid_text_fatal_witness :
    handleFrame (.Text [255]) 0 ⟨0⟩ = .error () ∧
    serverStep [(.Text [255], 0, ⟨0⟩), (.Binary [2], 1, ⟨0⟩)] =
      [.error (), handleFrame (.Binary [2]) 1 ⟨0⟩] :=
  C4_invalid_text_fatal [255] 0 ⟨0⟩ (.Binary [2]) 1 ⟨0⟩ (by decide)

/-- C5: on a tick, the supervisor first checks elapsed time against the client
timeout: if it exceeds the threshold it returns TimedOut without attempting a
ping on that tick or any later tick (regardless of whether the send would have
succeeded); otherwise it attempts one ping send, returning SendFailed when the
send fails, and continuing to the rest of the run when it succeeds. -/
theorem C5_heartbeat_tick (n1 h1 n2 h2 n3 h3 : Nat) (s1 : Bool)
    (r1 r2 r3 : List HbEvent)
    (hTimeout : n1 - h1 > CLIENT_TIMEOUT)
    (hAlive2 : n2 - h2 ≤ CLIENT_TIMEOUT)
    (hAlive3 : n3 - h3 ≤ CLIENT_TIMEOUT) :
    heartbeatRun (.tick n1 h1 s1 :: r1) = (.TimedOut, []) ∧
    heartbeatRun (.tick n2 h2 true :: r2) =
      ((heartbeatRun r2).1, n2 :: (heartbeatRun r2).2) ∧
    heartbeatRun (.tick n3 h3 false :: r3) = (.SendFailed, [n3]) := by
  refine ⟨?_, ?_, ?_⟩
  · simp [heartbeatRun, hTimeout]
  · simp [heartbeatRun, Nat.not_lt.mpr hAlive2]
  · simp [heartbeatRun, Nat.not_lt.mpr hAlive3]

/-- Witness for C5: a timed-out tick at 20, a successful tick at 5, a failed
send at 7, all from timestamp 0. -/
theorem C5_heartbeat_tick_witness :
    heartbeatRun [.tick 20 0 true] = (.TimedOut, []) ∧
    heartbeatRun [.tick 5 0 true] =
      ((heartbeatRun []).1, 5 :: (heartbeatRun []).2) ∧
    heartbeatRun [.tick 7 0 false] = (.SendFailed, [7]) :=
  C5_heartbeat_tick 20 0 5 0 7 0 true [] [] [] (by decide) (by decide) (by decide)

/-- C6 counterexample: at the tick at t = 10 with liveness timestamp 0, the
elapsed time equals (so is greater than or equal to) the client timeout
threshold, yet the supervisor does not detect a timeout: the strict comparison
in the source lets it send a ping and keep running. -/
theorem C6_counterexample :
    CLIENT_TIMEOUT ≤ 10 - 0 ∧
    heartbeatRun [HbEvent.tick 10 0 true] = (.Running, [10]) ∧
    heartbeatRun [HbEvent.tick 10 0 true] ≠ (.TimedOut, []) := by
  refine ⟨by decide, by decide, by decide⟩

/-- C6 amended: with the default constants, a peer silent since timestamp 0
receives a ping at t = 5 (the first interval) and again at t = 10 (elapsed 10
is not strictly greater than the threshold, so no detection there), and the
supervisor detects the timeout and stops at the t = 15 tick, the first tick
whose elapsed time strictly exceeds the threshold. -/
theorem C6_silent_peer_timeout :
    heartbeatRun (silentPeerTicks 2) =
      (.Running, [HEARTBEAT_INTERVAL, 2 * HEARTBEAT_INTERVAL]) ∧
    heartbeatRun (silentPeerTicks 3) =
      (.TimedOut, [HEARTBEAT_INTERVAL, 2 * HEARTBEAT_INTERVAL]) := by
  refine ⟨by decide, by decide⟩

/-- C7: whenever the shutdown signal wins the race against the pending tick,
the supervisor returns Cancelled immediately: no further timeout check runs and
no further ping is attempted, whatever events would have followed. -/
theorem C7_shutdown_wins (rest : List HbEvent) :
    heartbeatRun (HbEvent.shutdown :: rest) = (.Cancelled, []) := rfl

/-- C8: over any connection lifetime — whatever frames arrive, including ones
whose handling panics — the shutdown signal is fired exactly once, as the final
effect at teardown; and firing the oneshot channel after the receiver half is
gone leaves the channel unchanged and surfaces no error (the send result is
discarded). -/
theorem C8_shutdown_once (st : WsState) (frames : List (Nat × Frame))
    (ch : OneshotChannel) (hdrop : ch.receiverAlive = false) :
    List.count Effect.firedShutdown (serviceRun st frames) = 1 ∧
    (serviceRun st frames).getLast? = some Effect.firedShutdown ∧
    onShutdown ch = ch := by
  refine ⟨?_, ?_, ?_⟩
  · rw [serviceRun, List.count_append]
    have h0 : ∀ ms : List Message,
        List.count Effect.firedShutdown (ms.map Effect.sent) = 0 := by
      intro ms
      induction ms with
      | nil => rfl
      | cons m ms ih => simpa [List.count_cons] using ih
    rw [h0]
    rfl
  · rw [serviceRun]
    simp
  · simp [onShutdown, oneshotSend, hdrop]

/-- Witness for C8: one Ping frame, channel with the receiver dropped. -/
theorem C8_shutdown_once_witness :
    List.count Effect.firedShutdown (serviceRun ⟨0⟩ [(1, Frame.Ping [7])]) = 1 ∧
    (serviceRun ⟨0⟩ [(1, Frame.Ping [7])]).getLast? = some Effect.firedShutdown ∧
    onShutdown ⟨false, false⟩ = ⟨false, false⟩ :=
  C8_shutdown_once ⟨0⟩ [(1, Frame.Ping [7])] ⟨false, false⟩ rfl

/-- C9: if the key PEM file or the certificate PEM file is missing or
unreadable, startup panics before either listener is bound and the process
never proceeds to serve traffic. -/
theorem C9_tls_load_fatal (keyFile certFile : Option (List (List Nat)))
    (h : keyFile = none ∨ certFile = none) :
    mainStartup keyFile certFile = .panickedBeforeBind := by
  cases h with
  | inl hk => rw [hk]; rfl
  | inr hc =>
    rw [hc]
    cases keyFile with
    | none => rfl
    | some keys =>
      simp only [mainStartup]
      split
      · rfl
      · rfl

/-- Witness for C9: missing key file. -/
theorem C9_tls_load_fatal_witness :
    mainStartup none (some [[1]]) = .panickedBeforeBind :=
  C9_tls_load_fatal none (some [[1]]) (Or.inl rfl)

/-- C10 counterexample: the handler does not produce a message for every
inbound frame of every kind — on a Text frame with the invalid UTF-8 payload
[255] it panics (modelled as an error) instead of returning a message. -/
theorem C10_counterexample :
    handleFrame (Frame.Text [255]) 0 ⟨0⟩ = Except.error () := rfl

/-- C10 amended: for every inbound frame except a Text frame with an invalid
UTF-8 payload (whose handling panics), the handler returns exactly one
outbound message — Ok(Some(..)), never Ok(None) and never an Err — and, the
handler being a function of the frame, the clock reading and the state, the
mapping is deterministic. -/
theorem C10_one_message (f : Frame) (now : Nat) (st : WsState)
    (h : ∀ bs, f = Frame.Text bs → validUtf8 bs = true) :
    ∃ st2 m, handleFrame f now st = .ok (st2, some m) := by
  cases f with
  | Ping p => exact ⟨_, _, rfl⟩
  | Text t =>
    refine ⟨st, .Text t, ?_⟩
    simp [handleFrame, h t rfl]
  | Binary b => exact ⟨_, _, rfl⟩
  | Pong p => exact ⟨_, _, rfl⟩
  | Close r => exact ⟨_, _, rfl⟩
  | Continuation c => exact ⟨_, _, rfl⟩

/-- Witness for C10 at a Binary frame. -/
theorem C10_one_message_witness :
    ∃ st2 m, handleFrame (Frame.Binary [1]) 0 ⟨0⟩ = .ok (st2, some m) :=
  C10_one_message (Frame.Binary [1]) 0 ⟨0⟩ (fun _bs hbs => nomatch hbs)
